import Mathlib

/-!
Verification of the task-api service (src/docker/api/src/main.py and
src/docker/api/src/logger.py) against its natural-language specification.

The embedding models:
 * the PostgreSQL `tasks` table and the two parameterized statements the
   handlers run (INSERT ... RETURNING and SELECT ... ORDER BY id DESC),
 * the pydantic request model `Task` (presence/type validation only),
 * the FastAPI handlers `create_task` and `list_tasks` including their
   try/except conversion of persistence errors into HTTPException(500),
 * the HTTP request middleware (`request_middleware`): uuid4 request id,
   user-id extraction from header/query, the X-Request-ID response header,
 * the `lifespan` startup hook's schema-bootstrap try/except,
 * `SimpleJsonFormatter.add_fields` from logger.py.

External collaborators (the database engine, the HTTP framework) are modelled
as explicit parameters: a connection outcome and an injected statement fault
stand for the store being reachable or failing.
-/

namespace TaskApi

/-- Row of the `tasks` table as created by the schema-bootstrap statement:
`id SERIAL PRIMARY KEY, title VARCHAR(255) NOT NULL, description TEXT,
status VARCHAR(50) DEFAULT 'pending', user_id VARCHAR(255) NOT NULL,
created_at TIMESTAMP DEFAULT CURRENT_TIMESTAMP`. Timestamps are modelled
as ticks of the store's clock. -/
structure TaskRow where
  id : Nat
  title : String
  description : Option String
  status : String
  user_id : String
  created_at : Nat
deriving Repr, DecidableEq

/-- State of the store: current rows of `tasks`, the SERIAL sequence value
the next insert will use, and the store clock used for `created_at`. -/
structure DbState where
  rows : List TaskRow
  nextId : Nat
  clock : Nat
deriving Repr, DecidableEq

/-- The empty store right after schema bootstrap (SERIAL sequences start at 1). -/
def dbEmpty : DbState := ⟨[], 1, 0⟩

/-- A row as returned by the insert query's RETURNING clause and by the
list query's SELECT list: `id, title, description, status, user_id`
(note: no `created_at` column). -/
structure ReturnedRow where
  id : Nat
  title : String
  description : Option String
  status : String
  user_id : String
deriving Repr, DecidableEq

/-- Columns of the `tasks` table (schema-bootstrap statement in `lifespan`). -/
def tasksTableColumns : List String :=
  ["id", "title", "description", "status", "user_id", "created_at"]

/-- Columns named in the RETURNING clause of the insert statement in
`create_task`: `RETURNING id, title, description, status, user_id`. -/
def insertReturningColumns : List String :=
  ["id", "title", "description", "status", "user_id"]

/-- Semantics of `INSERT INTO tasks (title, description, user_id) VALUES
($1, $2, $3) RETURNING id, title, description, status, user_id` against a
store in state `db`: the store assigns `id` from the SERIAL sequence,
`status` from its default `'pending'`, `created_at` from its clock, and the
statement errors when a VARCHAR(255) bound is exceeded. -/
def insertTask (db : DbState) (title : String) (description : Option String)
    (user_id : String) : Except String (ReturnedRow × DbState) :=
  if title.length ≤ 255 ∧ user_id.length ≤ 255 then
    let row : TaskRow :=
      ⟨db.nextId, title, description, "pending", user_id, db.clock⟩
    .ok (⟨row.id, row.title, row.description, row.status, row.user_id⟩,
      ⟨db.rows ++ [row], db.nextId + 1, db.clock + 1⟩)
  else
    .error "value too long for type character varying(255)"

/-- Projection of a stored row to the SELECT list
`id, title, description, status, user_id` used by `list_tasks`. -/
def toReturned (r : TaskRow) : ReturnedRow :=
  ⟨r.id, r.title, r.description, r.status, r.user_id⟩

/-- Semantics of `SELECT id, title, description, status, user_id FROM tasks
WHERE user_id = $1 ORDER BY id DESC` against the rows of the store. -/
def selectTasksForUser (rows : List TaskRow) (uid : String) : List ReturnedRow :=
  ((rows.filter (fun r => r.user_id == uid)).mergeSort
    (fun a b => decide (b.id ≤ a.id))).map toReturned

/-- Pydantic model `Task` (main.py): `title: str`, `description: str | None
= None`, `user_id: str`. -/
structure TaskInput where
  title : String
  description : Option String
  user_id : String
deriving Repr, DecidableEq

/-- Pydantic model `TaskResponse` (main.py): `id, title, description,
status, user_id`. -/
structure TaskResponse where
  id : Nat
  title : String
  description : Option String
  status : String
  user_id : String
deriving Repr, DecidableEq

/-- A JSON request body for POST /tasks, before validation: each field of
`Task` either present or absent. -/
structure RawBody where
  title : Option String
  description : Option String
  user_id : Option String
deriving Repr, DecidableEq

/-- Pydantic validation of the `Task` model: `title` and `user_id` are
required (a missing field is a validation error), `description` defaults to
None. Pydantic checks presence and type only; it imposes no non-emptiness
constraint on the strings. -/
def validateTask (b : RawBody) : Except String TaskInput :=
  match b.title, b.user_id with
  | some t, some u => .ok ⟨t, b.description, u⟩
  | none, _ => .error "title: Field required"
  | some _, none => .error "user_id: Field required"

/-- Connection-level actions a handler performs on the store, in order:
`asyncpg.connect` and `conn.close`. -/
inductive ConnAction where
  | connect : ConnAction
  | close : ConnAction
deriving Repr, DecidableEq

/-- Environment provided by the store for one handler invocation:
whether `asyncpg.connect` succeeds, and an optional fault making the
executed statement raise (store unavailable mid-request, missing table
after a failed bootstrap, ...). -/
structure DbEnv where
  connectResult : Except String Unit
  fault : Option String
deriving Repr

/-- Environment of a reachable, fault-free store. -/
def envOk : DbEnv := ⟨.ok (), none⟩

/-- Outcome of a handler body: a value returned to the framework, or an
`HTTPException(status_code, detail)` raised for the framework to render. -/
inductive HandlerResult (α : Type) where
  | ok (value : α) : HandlerResult α
  | httpError (status_code : Nat) (detail : String) : HandlerResult α
deriving Repr, DecidableEq

/-- The statement step of `create_task`: `conn.fetchrow(INSERT ...)`.
A store fault makes it raise; otherwise it is the insert semantics. -/
def create_statement (env : DbEnv) (db : DbState) (t : TaskInput) :
    Except String (ReturnedRow × DbState) :=
  match env.fault with
  | some e => .error e
  | none => insertTask db t.title t.description t.user_id

/-- Handler body of `POST /tasks` (`create_task` in main.py): connect,
run the insert, close, build a `TaskResponse` from the returned row; any
exception is caught and re-raised as `HTTPException(500, f"Database error:
{e}")`. Returns the handler outcome, the store state after the call, and
the connection actions actually performed (note: the `conn.close()` line
is inside the `try` before the statement result is used, so it is skipped
whenever the statement raises). -/
def create_task (env : DbEnv) (db : DbState) (t : TaskInput) :
    HandlerResult TaskResponse × DbState × List ConnAction :=
  match env.connectResult with
  | .error e => (.httpError 500 ("Database error: " ++ e), db, [])
  | .ok _ =>
    match create_statement env db t with
    | .error e => (.httpError 500 ("Database error: " ++ e), db, [.connect])
    | .ok (row, db2) =>
      (.ok ⟨row.id, row.title, row.description, row.status, row.user_id⟩,
        db2, [.connect, .close])

/-- `POST /tasks` endpoint as the framework runs it: pydantic validation of
the body first (a validation failure is a 422 response and the handler body
never executes), then the handler body. -/
def handle_create (env : DbEnv) (db : DbState) (b : RawBody) :
    HandlerResult TaskResponse × DbState × List ConnAction :=
  match validateTask b with
  | .error msg => (.httpError 422 msg, db, [])
  | .ok t => create_task env db t

/-- The statement step of `list_tasks`: `conn.fetch(SELECT ...)`. -/
def list_statement (env : DbEnv) (db : DbState) (uid : String) :
    Except String (List ReturnedRow) :=
  match env.fault with
  | some e => .error e
  | none => .ok (selectTasksForUser db.rows uid)

/-- Handler body of `GET /tasks` (`list_tasks` in main.py): connect, run
the select, close, map the rows to `TaskResponse` values; any exception is
caught and re-raised as `HTTPException(500, f"Database error: {e}")`.
As in `create_task`, `conn.close()` is skipped when the statement raises. -/
def list_tasks (env : DbEnv) (db : DbState) (uid : String) :
    HandlerResult (List ReturnedRow) × DbState × List ConnAction :=
  match env.connectResult with
  | .error e => (.httpError 500 ("Database error: " ++ e), db, [])
  | .ok _ =>
    match list_statement env db uid with
    | .error e => (.httpError 500 ("Database error: " ++ e), db, [.connect])
    | .ok rs => (.ok rs, db, [.connect, .close])

/-- Hex digit character, lower case (0-9 then a-f), as produced by a uuid's
standard textual representation. -/
def hexChar (n : Nat) : Char :=
  if n < 10 then Char.ofNat (48 + n) else Char.ofNat (87 + n)

/-- Exactly `w` hex digits of `n` (most significant first, zero padded). -/
def hexDigitsAux : Nat → Nat → List Char
  | 0, _ => []
  | w + 1, n => hexDigitsAux w (n / 16) ++ [hexChar (n % 16)]

/-- Fixed-width hex rendering of a natural number. -/
def hexPad (w n : Nat) : String := String.mk (hexDigitsAux w n)

/-- Textual representation of `str(uuid.uuid4())` for a 128-bit random value
`n`: 32 lower-case hex digits in the 8-4-4-4-12 grouping. -/
def uuidStr (n : Nat) : String :=
  let m := n % 2 ^ 128
  hexPad 8 (m / 2 ^ 96) ++ "-" ++ hexPad 4 (m / 2 ^ 80 % 2 ^ 16) ++ "-" ++
    hexPad 4 (m / 2 ^ 64 % 2 ^ 16) ++ "-" ++ hexPad 4 (m / 2 ^ 48 % 2 ^ 16) ++
    "-" ++ hexPad 12 (m % 2 ^ 48)

/-- Lookup in a string-keyed mapping represented as an association list
(first binding wins; keys are unique in the mappings being modelled). -/
def alistGet {α : Type} : List (String × α) → String → Option α
  | [], _ => none
  | p :: t, k => if p.1 = k then some p.2 else alistGet t k

/-- Mapping assignment `d[k] = v`: overwrite in place when the key exists,
else append the binding. -/
def alistSet {α : Type} : List (String × α) → String → α → List (String × α)
  | [], k, v => [(k, v)]
  | p :: t, k, v => if p.1 = k then (k, v) :: t else p :: alistSet t k v

/-- Membership test `k in d`. -/
def alistHasKey {α : Type} (d : List (String × α)) (k : String) : Bool :=
  (alistGet d k).isSome

/-- Lookup in a header or query-parameter mapping, as
`request.headers.get(k)` / `request.query_params.get(k)`;
the check `k in mapping` is `(headerLookup ...).isSome`. -/
def headerLookup (hs : List (String × String)) (k : String) : Option String :=
  alistGet hs k

/-- Starlette `response.headers[k] = v`: replace the value of an existing
header named `k`, or append the header when absent. -/
def setHeader (hs : List (String × String)) (k v : String) :
    List (String × String) :=
  alistSet hs k v

/-- The parts of an inbound request the middleware inspects. -/
structure RequestInfo where
  headers : List (String × String)
  query_params : List (String × String)
  path : String
  method : String
deriving Repr, DecidableEq

/-- A response as the middleware sees it: status code and headers. -/
structure HttpResponse where
  status_code : Nat
  headers : List (String × String)
deriving Repr, DecidableEq

/-- The user-id extraction of `request_middleware` (main.py lines 147-151):
`X-User-ID` header when present, else the `user_id` query parameter when
present, else none. -/
def extract_user_id (req : RequestInfo) : Option String :=
  if (headerLookup req.headers "X-User-ID").isSome then
    headerLookup req.headers "X-User-ID"
  else if (headerLookup req.query_params "user_id").isSome then
    headerLookup req.query_params "user_id"
  else
    none

/-- The user id the middleware puts into `extra_context`: the extracted
value is added only under Python truthiness (`if user_id:`), so an empty
string — like a missing one — is not attached. -/
def context_user_id (req : RequestInfo) : Option String :=
  match extract_user_id req with
  | some u => if u = "" then none else some u
  | none => none

/-- The `extra_context` mapping bound to `request.state.logger`:
`request_id`, `path`, `method` always; `user_id` only when truthy. -/
structure LogContext where
  request_id : String
  path : String
  method : String
  user_id : Option String
deriving Repr, DecidableEq

/-- The request middleware (`request_middleware` in main.py) for one request:
generates `request_id = str(uuid.uuid4())` from the random seed, builds the
per-request logging context, and runs the inner pipeline. When the inner
pipeline returns a response (all handler outcomes, including rendered
`HTTPException`s, do), the middleware sets the `X-Request-ID` response header
to the generated id; when it raises, the middleware logs and re-raises the
exception unchanged. -/
def request_middleware (seed : Nat) (req : RequestInfo)
    (inner : Except String HttpResponse) :
    LogContext × Except String HttpResponse :=
  let request_id := uuidStr seed
  let ctx : LogContext := ⟨request_id, req.path, req.method, context_user_id req⟩
  match inner with
  | .ok resp =>
    (ctx, .ok { resp with headers := setHeader resp.headers "X-Request-ID" request_id })
  | .error e => (ctx, .error e)

/-- A structured log event: severity, message, and whether the event carries
an `error_details` field. -/
structure LogEvent where
  level : String
  message : String
  error_details : Option String
deriving Repr, DecidableEq

/-- Startup phase of `lifespan` (main.py): try to connect and run the
schema-bootstrap statement; on success log an info event, on any exception
log an error event whose message and `error_details` carry the exception
text. The except-clause does not re-raise, so control always reaches
`yield` (second component true: the server starts serving). -/
def lifespan_startup (bootstrap : Except String Unit) : List LogEvent × Bool :=
  match bootstrap with
  | .ok _ => ([⟨"INFO", "Database initialized successfully", none⟩], true)
  | .error e =>
    ([⟨"ERROR", "Database initialization failed: " ++ e, some e⟩], true)

/-- Runtime value of a Python object, at the granularity the logger's
type check distinguishes: the types named in `isinstance(value, (str, int,
float, bool, list, dict, type(None)))`, plus tuples and other objects
(identified by class name), which that check rejects. Float contents are
kept opaque (their value never matters to the check). -/
inductive PyValue where
  | str : String → PyValue
  | int : Int → PyValue
  | float : String → PyValue
  | bool : Bool → PyValue
  | none : PyValue
  | list : List PyValue → PyValue
  | dict : List (String × PyValue) → PyValue
  | tuple : List PyValue → PyValue
  | obj : String → PyValue
deriving Repr

/-- The logger's serializability test, `isinstance(value, (str, int, float,
bool, list, dict, type(None)))` (logger.py line 32). -/
def isJsonSerializable : PyValue → Bool
  | .str _ => true
  | .int _ => true
  | .float _ => true
  | .bool _ => true
  | .none => true
  | .list _ => true
  | .dict _ => true
  | .tuple _ => false
  | .obj _ => false

/-- Whether a value is an ordered sequence in Python's sense (list, tuple);
strings are classified separately by the specification's enumeration. -/
def isOrderedSequence : PyValue → Bool
  | .list _ => true
  | .tuple _ => true
  | _ => false

/-- Keys of `logging.LogRecord.__dict__` (the class dict: dunder attributes
and methods — not the per-record instance attributes). -/
def logRecordClassAttrs : List String :=
  ["__module__", "__qualname__", "__doc__", "__init__", "__repr__",
    "getMessage", "__dict__", "__weakref__"]

/-- Keys `SimpleJsonFormatter.add_fields` skips when copying record
attributes: members of `logging.LogRecord.__dict__` and the explicit list
`["args", "exc_info", "exc_text", "stack_info", "message"]`. -/
def skipKeys : List String :=
  logRecordClassAttrs ++ ["args", "exc_info", "exc_text", "stack_info", "message"]

/-- Python dict assignment `d[k] = v`. -/
def dictSet (d : List (String × PyValue)) (k : String) (v : PyValue) :
    List (String × PyValue) :=
  alistSet d k v

/-- Python dict lookup `d.get(k)`. -/
def dictGet (d : List (String × PyValue)) (k : String) : Option PyValue :=
  alistGet d k

/-- Whether key `k` is present in the dict. -/
def dictHasKey (d : List (String × PyValue)) (k : String) : Bool :=
  alistHasKey d k

/-- One iteration of the attribute-copying loop of
`SimpleJsonFormatter.add_fields`: `log_record[key] = value` exactly when the
key is not skipped and the value passes the serializability test. -/
def addFieldStep (acc : List (String × PyValue)) (kv : String × PyValue) :
    List (String × PyValue) :=
  if kv.1 ∉ skipKeys ∧ isJsonSerializable kv.2 then dictSet acc kv.1 kv.2
  else acc

/-- `SimpleJsonFormatter.add_fields` (logger.py): starting from the record
built by the base formatter, set `timestamp`, `level` and `logger`, then
copy every attribute of `record.__dict__` whose key is not skipped and
whose value passes the serializability test. -/
def add_fields (log_record : List (String × PyValue))
    (recordDict : List (String × PyValue)) (ts lvl lg : String) :
    List (String × PyValue) :=
  recordDict.foldl addFieldStep
    (dictSet (dictSet (dictSet log_record "timestamp" (.str ts))
      "level" (.str lvl)) "logger" (.str lg))

/-! Helper lemmas. -/

theorem hexDigitsAux_length (w : Nat) : ∀ n : Nat, (hexDigitsAux w n).length = w := by
  induction w with
  | zero => intro n; rfl
  | succ w ih => intro n; simp [hexDigitsAux, ih]

theorem hexPad_length (w n : Nat) : (hexPad w n).length = w :=
  hexDigitsAux_length w n

theorem uuidStr_length (n : Nat) : (uuidStr n).length = 36 := by
  simp [uuidStr, String.length_append, hexPad_length]
  decide

theorem uuidStr_ne_empty (n : Nat) : uuidStr n ≠ "" := by
  intro h
  have h36 := uuidStr_length n
  rw [h] at h36
  simp [String.length] at h36

theorem alistGet_alistSet_self {α : Type} (d : List (String × α))
    (k : String) (v : α) : alistGet (alistSet d k v) k = some v := by
  induction d with
  | nil => simp [alistSet, alistGet]
  | cons p t ih =>
    by_cases hp : p.1 = k
    · simp [alistSet, alistGet, hp]
    · simp [alistSet, alistGet, hp, ih]

theorem alistGet_alistSet_ne {α : Type} (d : List (String × α))
    (k k2 : String) (v : α) (hne : k ≠ k2) :
    alistGet (alistSet d k2 v) k = alistGet d k := by
  induction d with
  | nil => simp [alistSet, alistGet, Ne.symm hne]
  | cons p t ih =>
    by_cases hp : p.1 = k2
    · simp [alistSet, alistGet, hp, Ne.symm hne]
    · have hset : alistSet (p :: t) k2 v = p :: alistSet t k2 v := by
        simp [alistSet, hp]
      by_cases hpk : p.1 = k
      · rw [hset]
        simp [alistGet, hpk]
      · rw [hset]
        simp [alistGet, hpk, ih]

theorem alistGet_eq_none_of_not_hasKey {α : Type} (d : List (String × α))
    (k : String) (h : alistHasKey d k = false) : alistGet d k = none := by
  unfold alistHasKey at h
  cases hg : alistGet d k with
  | none => rfl
  | some v => rw [hg] at h; simp at h

theorem alistHasKey_alistSet_ne {α : Type} (d : List (String × α))
    (k k2 : String) (v : α) (hne : k ≠ k2) (h : alistHasKey d k = false) :
    alistHasKey (alistSet d k2 v) k = false := by
  unfold alistHasKey at h ⊢
  rw [alistGet_alistSet_ne d k k2 v hne]
  exact h

theorem alist_nodup_mem_unique {α : Type} {l : List (String × α)}
    (h : (l.map Prod.fst).Nodup) {k : String} {v1 v2 : α}
    (h1 : (k, v1) ∈ l) (h2 : (k, v2) ∈ l) : v1 = v2 := by
  induction l with
  | nil => cases h1
  | cons p t ih =>
    rw [List.map_cons] at h
    have hnd := List.nodup_cons.mp h
    rcases List.mem_cons.mp h1 with e1 | m1
    · rcases List.mem_cons.mp h2 with e2 | m2
      · exact congrArg Prod.snd (e1.trans e2.symm)
      · exfalso
        apply hnd.1
        rw [← e1]
        exact List.mem_map.mpr ⟨(k, v2), m2, rfl⟩
    · rcases List.mem_cons.mp h2 with e2 | m2
      · exfalso
        apply hnd.1
        rw [← e2]
        exact List.mem_map.mpr ⟨(k, v1), m1, rfl⟩
      · exact ih hnd.2 m1 m2

theorem foldl_addFieldStep_preserve (l : List (String × PyValue)) :
    ∀ (acc : List (String × PyValue)) (key : String),
      (∀ kv ∈ l, kv.1 ≠ key) →
      dictGet (l.foldl addFieldStep acc) key = dictGet acc key := by
  induction l with
  | nil => intro acc key _; rfl
  | cons kv t ih =>
    intro acc key hnone
    have hk : kv.1 ≠ key := hnone kv (List.mem_cons_self _ _)
    have ht : ∀ p ∈ t, p.1 ≠ key := fun p hp => hnone p (List.mem_cons_of_mem _ hp)
    rw [List.foldl_cons, ih _ key ht]
    unfold addFieldStep
    split
    · exact alistGet_alistSet_ne acc key kv.1 kv.2 (Ne.symm hk)
    · rfl

theorem foldl_addFieldStep_found (l : List (String × PyValue)) :
    ∀ (acc : List (String × PyValue)) (key : String) (value : PyValue),
      (key, value) ∈ l → (l.map Prod.fst).Nodup →
      key ∉ skipKeys → isJsonSerializable value = true →
      dictGet (l.foldl addFieldStep acc) key = some value := by
  induction l with
  | nil => intro acc key value hmem; cases hmem
  | cons kv t ih =>
    intro acc key value hmem hnodup hskip hser
    rw [List.map_cons] at hnodup
    have hnd := List.nodup_cons.mp hnodup
    rw [List.foldl_cons]
    rcases List.mem_cons.mp hmem with heq | hmem'
    · have hkv : kv = (key, value) := heq.symm
      subst hkv
      have hstep : addFieldStep acc (key, value) = dictSet acc key value := by
        unfold addFieldStep
        rw [if_pos ⟨hskip, hser⟩]
      rw [hstep]
      have hnone : ∀ p ∈ t, p.1 ≠ key := by
        intro p hp hpk
        exact hnd.1 (hpk ▸ List.mem_map.mpr ⟨p, hp, rfl⟩)
      rw [foldl_addFieldStep_preserve t _ key hnone]
      exact alistGet_alistSet_self acc key value
    · exact ih _ key value hmem' hnd.2 hskip hser

theorem foldl_addFieldStep_dropped (l : List (String × PyValue)) :
    ∀ (acc : List (String × PyValue)) (key : String),
      alistHasKey acc key = false →
      (∀ kv ∈ l, kv.1 = key →
        ¬(kv.1 ∉ skipKeys ∧ isJsonSerializable kv.2 = true)) →
      alistHasKey (l.foldl addFieldStep acc) key = false := by
  induction l with
  | nil => intro acc key hacc _; exact hacc
  | cons kv t ih =>
    intro acc key hacc hno
    rw [List.foldl_cons]
    have ht : ∀ p ∈ t, p.1 = key →
        ¬(p.1 ∉ skipKeys ∧ isJsonSerializable p.2 = true) :=
      fun p hp => hno p (List.mem_cons_of_mem _ hp)
    refine ih _ key ?_ ht
    by_cases hk : kv.1 = key
    · have hcond := hno kv (List.mem_cons_self _ _) hk
      unfold addFieldStep
      rw [if_neg hcond]
      exact hacc
    · unfold addFieldStep
      split
      · exact alistHasKey_alistSet_ne acc key kv.1 kv.2 (Ne.symm hk) hacc
      · exact hacc

theorem request_middleware_fst (seed : Nat) (req : RequestInfo)
    (inner : Except String HttpResponse) :
    (request_middleware seed req inner).1 =
      ⟨uuidStr seed, req.path, req.method, context_user_id req⟩ := by
  cases inner <;> rfl

theorem insertTask_ok {db : DbState} {t u : String} {d : Option String}
    {r : ReturnedRow} {db2 : DbState}
    (h : insertTask db t d u = .ok (r, db2)) :
    r = ⟨db.nextId, t, d, "pending", u⟩ ∧
      db2 = ⟨db.rows ++ [⟨db.nextId, t, d, "pending", u, db.clock⟩],
        db.nextId + 1, db.clock + 1⟩ := by
  unfold insertTask at h
  split at h
  · simp at h
    exact ⟨h.1.symm, h.2.symm⟩
  · simp at h

/-! Claim theorems. -/

/-- C1: For every valid create-task input (non-empty title, optional
description, user_id), the task returned by the create-task operation has
title, description and user_id equal to the input and status equal to
"pending". -/
theorem C1_create_task_returns_input_and_pending (env : DbEnv) (db : DbState)
    (t : TaskInput) (resp : TaskResponse) (db2 : DbState)
    (acts : List ConnAction) (_htitle : t.title ≠ "")
    (h : create_task env db t = (.ok resp, db2, acts)) :
    resp.title = t.title ∧ resp.description = t.description ∧
      resp.user_id = t.user_id ∧ resp.status = "pending" := by
  unfold create_task at h
  cases hc : env.connectResult with
  | error e => rw [hc] at h; simp at h
  | ok u =>
    rw [hc] at h
    cases hs : create_statement env db t with
    | error e => rw [hs] at h; simp at h
    | ok pr =>
      rw [hs] at h
      obtain ⟨row, db3⟩ := pr
      unfold create_statement at hs
      cases hf : env.fault with
      | some e => rw [hf] at hs; simp at hs
      | none =>
        rw [hf] at hs
        obtain ⟨hrow, -⟩ := insertTask_ok hs
        simp only [Prod.mk.injEq] at h
        obtain ⟨h1, -, -⟩ := h
        simp only [HandlerResult.ok.injEq] at h1
        rw [← h1, hrow]
        exact ⟨rfl, rfl, rfl, rfl⟩

/-- C1 witness: a concrete successful create for input
("Buy milk", none, "u1") on the empty store. -/
theorem C1_create_task_returns_input_and_pending_witness :
    (TaskResponse.mk 1 "Buy milk" none "pending" "u1").title = "Buy milk" ∧
    (TaskResponse.mk 1 "Buy milk" none "pending" "u1").description = none ∧
    (TaskResponse.mk 1 "Buy milk" none "pending" "u1").user_id = "u1" ∧
    (TaskResponse.mk 1 "Buy milk" none "pending" "u1").status = "pending" :=
  C1_create_task_returns_input_and_pending envOk dbEmpty
    ⟨"Buy milk", none, "u1"⟩ ⟨1, "Buy milk", none, "pending", "u1"⟩
    ⟨[⟨1, "Buy milk", none, "pending", "u1", 0⟩], 2, 1⟩
    [ConnAction.connect, ConnAction.close] (by decide) (by decide)

/-- C2 counterexample: a create request whose title is the empty string is
not rejected — it passes pydantic validation (which checks presence and
type only), the handler body runs, and a row is written to the store, so
the store state changes. -/
theorem C2_counterexample_empty_title_accepted :
    validateTask ⟨some "", none, some "u1"⟩ = .ok ⟨"", none, "u1"⟩ ∧
    (handle_create envOk dbEmpty ⟨some "", none, some "u1"⟩).2.1 ≠ dbEmpty ∧
    (handle_create envOk dbEmpty ⟨some "", none, some "u1"⟩).1 =
      .ok ⟨1, "", none, "pending", "u1"⟩ := by
  refine ⟨rfl, by decide, by decide⟩

/-- C2 (amended): for every create-task request whose title field is
missing or whose user_id field is missing, the request is rejected with a
validation-failure (422) response before the handler body runs, and the
store state is unchanged (no connection is even opened). An empty-string
title, however, passes validation. -/
theorem C2_missing_required_field_rejected (env : DbEnv) (db : DbState)
    (b : RawBody) (h : b.title = none ∨ b.user_id = none) :
    ∃ msg, handle_create env db b = (.httpError 422 msg, db, []) := by
  obtain ⟨bt, bd, bu⟩ := b
  rcases h with h | h
  · cases h
    cases bu with
    | none => exact ⟨_, rfl⟩
    | some u => exact ⟨_, rfl⟩
  · cases h
    cases bt with
    | none => exact ⟨_, rfl⟩
    | some t => exact ⟨_, rfl⟩

/-- C2 witness: a concrete body with missing title is rejected with 422 and
the store untouched. -/
theorem C2_missing_required_field_rejected_witness :
    ∃ msg, handle_create envOk dbEmpty ⟨none, none, some "u1"⟩ =
      (.httpError 422 msg, dbEmpty, []) :=
  C2_missing_required_field_rejected envOk dbEmpty ⟨none, none, some "u1"⟩
    (Or.inl rfl)

/-- C4 counterexample: a concrete successful insert. The stored row carries
a store-assigned created_at, but the row returned by the insert statement
does not: its RETURNING clause names only id, title, description, status
and user_id, so the returned row is not the full inserted row. -/
theorem C4_counterexample_created_at_not_returned :
    insertTask dbEmpty "Buy milk" none "u1" =
      .ok (⟨1, "Buy milk", none, "pending", "u1"⟩,
        ⟨[⟨1, "Buy milk", none, "pending", "u1", 0⟩], 2, 1⟩) ∧
    "created_at" ∈ tasksTableColumns ∧
    "created_at" ∉ insertReturningColumns := by
  refine ⟨rfl, by decide, by decide⟩

/-- C4 (amended): for every valid create-task input, the insert operation
returns the inserted row's id, title, description, status and user_id —
with the store-assigned id and the default status "pending" — while the
store-assigned created_at is set on the stored row but is not among the
returned columns. -/
theorem C4_insert_returns_assigned_row (db : DbState) (t u : String)
    (d : Option String) (ht : t.length ≤ 255) (hu : u.length ≤ 255) :
    insertTask db t d u =
      .ok (⟨db.nextId, t, d, "pending", u⟩,
        ⟨db.rows ++ [⟨db.nextId, t, d, "pending", u, db.clock⟩],
          db.nextId + 1, db.clock + 1⟩) ∧
    "created_at" ∉ insertReturningColumns := by
  constructor
  · unfold insertTask
    rw [if_pos ⟨ht, hu⟩]
  · decide

/-- C4 witness: the amended statement at a concrete input. -/
theorem C4_insert_returns_assigned_row_witness :
    insertTask dbEmpty "Buy milk" none "u1" =
      .ok (⟨1, "Buy milk", none, "pending", "u1"⟩,
        ⟨[⟨1, "Buy milk", none, "pending", "u1", 0⟩], 2, 1⟩) ∧
    "created_at" ∉ insertReturningColumns :=
  C4_insert_returns_assigned_row dbEmpty "Buy milk" "u1" none
    (by decide) (by decide)

/-- C6: every persistence failure raised inside the create-task or
list-tasks handler body — a connection failure or a statement failure — is
converted into an HTTPException with server-error status 500 whose detail
message includes the underlying error text; no persistence error leaves a
handler unconverted. -/
theorem C6_persistence_error_converted_to_500 (env : DbEnv) (db : DbState)
    (t : TaskInput) (uid e : String) :
    ((env.connectResult = .error e ∨
        (env.connectResult = .ok () ∧ create_statement env db t = .error e)) →
      (create_task env db t).1 = .httpError 500 ("Database error: " ++ e) ∧
      ∃ pre post, "Database error: " ++ e = pre ++ e ++ post) ∧
    ((env.connectResult = .error e ∨
        (env.connectResult = .ok () ∧ list_statement env db uid = .error e)) →
      (list_tasks env db uid).1 = .httpError 500 ("Database error: " ++ e) ∧
      ∃ pre post, "Database error: " ++ e = pre ++ e ++ post) := by
  constructor
  · rintro (hc | ⟨hc, hs⟩)
    · refine ⟨?_, "Database error: ", "", by simp⟩
      simp [create_task, hc]
    · refine ⟨?_, "Database error: ", "", by simp⟩
      simp [create_task, hc, hs]
  · rintro (hc | ⟨hc, hs⟩)
    · refine ⟨?_, "Database error: ", "", by simp⟩
      simp [list_tasks, hc]
    · refine ⟨?_, "Database error: ", "", by simp⟩
      simp [list_tasks, hc, hs]

/-- C6 witness: a store whose connection step fails with "boom" yields 500
responses whose detail embeds "boom", for both handlers. -/
theorem C6_persistence_error_converted_to_500_witness :
    ((create_task ⟨.error "boom", none⟩ dbEmpty ⟨"t", none, "u"⟩).1 =
        .httpError 500 ("Database error: " ++ "boom") ∧
      ∃ pre post, "Database error: " ++ "boom" = pre ++ "boom" ++ post) ∧
    ((list_tasks ⟨.error "boom", none⟩ dbEmpty "u").1 =
        .httpError 500 ("Database error: " ++ "boom") ∧
      ∃ pre post, "Database error: " ++ "boom" = pre ++ "boom" ++ post) :=
  ⟨(C6_persistence_error_converted_to_500 ⟨.error "boom", none⟩ dbEmpty
      ⟨"t", none, "u"⟩ "u" "boom").1 (Or.inl rfl),
    (C6_persistence_error_converted_to_500 ⟨.error "boom", none⟩ dbEmpty
      ⟨"t", none, "u"⟩ "u" "boom").2 (Or.inl rfl)⟩

/-- C7: for every failure of the schema-bootstrap step at process
initialization, an error event carrying the failure text is logged and
startup continues (the lifespan hook reaches yield); the failure is never
fatal to the process. -/
theorem C7_bootstrap_failure_logged_nonfatal (e : String) :
    (lifespan_startup (.error e)).2 = true ∧
    ∃ ev ∈ (lifespan_startup (.error e)).1, ev.level = "ERROR" ∧
      ev.error_details = some e ∧ ∃ pre post, ev.message = pre ++ e ++ post := by
  refine ⟨rfl,
    ⟨"ERROR", "Database initialization failed: " ++ e, some e⟩,
    List.mem_singleton.mpr rfl, rfl, rfl,
    "Database initialization failed: ", "", by simp⟩

/-- C10: whenever the connection is opened successfully but the statement
raises, the handler performs no close action — the close step is skipped on
the error path — and it produces its 500 error response, for both the
create-task and the list-tasks handler. -/
theorem C10_close_skipped_on_statement_error (env : DbEnv) (db : DbState)
    (t : TaskInput) (uid : String) :
    (∀ e, env.connectResult = .ok () → create_statement env db t = .error e →
      (create_task env db t).2.2 = [ConnAction.connect] ∧
      ConnAction.close ∉ (create_task env db t).2.2 ∧
      (create_task env db t).1 = .httpError 500 ("Database error: " ++ e)) ∧
    (∀ e, env.connectResult = .ok () → list_statement env db uid = .error e →
      (list_tasks env db uid).2.2 = [ConnAction.connect] ∧
      ConnAction.close ∉ (list_tasks env db uid).2.2 ∧
      (list_tasks env db uid).1 = .httpError 500 ("Database error: " ++ e)) := by
  constructor
  · intro e hc hs
    simp [create_task, hc, hs]
  · intro e hc hs
    simp [list_tasks, hc, hs]

/-- C10 witness: a statement fault "boom" after a successful connect leaves
the action trace at [connect] with no close, and a 500 response. -/
theorem C10_close_skipped_on_statement_error_witness :
    (create_task ⟨.ok (), some "boom"⟩ dbEmpty ⟨"t", none, "u"⟩).2.2 =
        [ConnAction.connect] ∧
    ConnAction.close ∉
        (create_task ⟨.ok (), some "boom"⟩ dbEmpty ⟨"t", none, "u"⟩).2.2 ∧
    (create_task ⟨.ok (), some "boom"⟩ dbEmpty ⟨"t", none, "u"⟩).1 =
        .httpError 500 ("Database error: " ++ "boom") :=
  (C10_close_skipped_on_statement_error ⟨.ok (), some "boom"⟩ dbEmpty
    ⟨"t", none, "u"⟩ "u").1 "boom" rfl rfl

/-- C3: every response produced by the service — whatever its status, i.e.
for every inner pipeline outcome that yields a response — carries an
X-Request-ID header whose value is the identifier generated for that
request, and that identifier is non-empty. -/
theorem C3_response_carries_request_id (seed : Nat) (req : RequestInfo)
    (inner : Except String HttpResponse) (resp : HttpResponse)
    (h : (request_middleware seed req inner).2 = .ok resp) :
    headerLookup resp.headers "X-Request-ID" = some (uuidStr seed) ∧
    uuidStr seed ≠ "" := by
  cases inner with
  | error e => simp [request_middleware] at h
  | ok r =>
    simp only [request_middleware] at h
    have hr : { r with
        headers := setHeader r.headers "X-Request-ID" (uuidStr seed) } = resp := by
      simpa using h
    rw [← hr]
    exact ⟨alistGet_alistSet_self r.headers "X-Request-ID" (uuidStr seed),
      uuidStr_ne_empty seed⟩

/-- C3 witness: a concrete 200 response on a request with seed 0. -/
theorem C3_response_carries_request_id_witness :
    headerLookup (setHeader [] "X-Request-ID" (uuidStr 0)) "X-Request-ID" =
      some (uuidStr 0) ∧ uuidStr 0 ≠ "" :=
  C3_response_carries_request_id 0 ⟨[], [], "/health", "GET"⟩
    (.ok ⟨200, []⟩) ⟨200, setHeader [] "X-Request-ID" (uuidStr 0)⟩ rfl

/-- C5: on a reachable, fault-free store, listing tasks for a user succeeds
and returns exactly the rows whose user_id matches, ordered by id
descending; when no rows match it returns the empty list with success
status, not an error. -/
theorem C5_list_tasks_exact_sorted (env : DbEnv) (db : DbState) (uid : String)
    (hc : env.connectResult = .ok ()) (hf : env.fault = none) :
    ∃ rs, list_tasks env db uid =
        (.ok rs, db, [ConnAction.connect, ConnAction.close]) ∧
      rs.Perm ((db.rows.filter (fun r => r.user_id == uid)).map toReturned) ∧
      rs.Pairwise (fun a b => b.id ≤ a.id) ∧
      ((∀ row ∈ db.rows, row.user_id ≠ uid) → rs = []) := by
  refine ⟨selectTasksForUser db.rows uid, ?_, ?_, ?_, ?_⟩
  · simp [list_tasks, list_statement, hc, hf]
  · exact List.Perm.map toReturned (List.mergeSort_perm _ _)
  · have hs := @List.sorted_mergeSort TaskRow
      (fun a b => decide (b.id ≤ a.id))
      (fun a b c hab hbc => by simp at hab hbc ⊢; omega)
      (fun a b => by simpa using Nat.le_total b.id a.id)
      (db.rows.filter (fun r => r.user_id == uid))
    refine List.Pairwise.map toReturned ?_ hs
    intro a b hab
    simpa using hab
  · intro hnone
    have hnil : db.rows.filter (fun r => r.user_id == uid) = [] := by
      rw [List.filter_eq_nil_iff]
      intro a ha
      simpa using hnone a ha
    simp [selectTasksForUser, hnil]

/-- C5 witness: a store holding one row for "u1". -/
theorem C5_list_tasks_exact_sorted_witness :
    ∃ rs, list_tasks envOk ⟨[⟨1, "a", none, "pending", "u1", 0⟩], 2, 1⟩ "u1" =
        (.ok rs, ⟨[⟨1, "a", none, "pending", "u1", 0⟩], 2, 1⟩,
          [ConnAction.connect, ConnAction.close]) ∧
      rs.Perm ((([⟨1, "a", none, "pending", "u1", 0⟩] : List TaskRow).filter
        (fun r => r.user_id == "u1")).map toReturned) ∧
      rs.Pairwise (fun a b => b.id ≤ a.id) ∧
      ((∀ row ∈ ([⟨1, "a", none, "pending", "u1", 0⟩] : List TaskRow),
        row.user_id ≠ "u1") → rs = []) :=
  C5_list_tasks_exact_sorted envOk ⟨[⟨1, "a", none, "pending", "u1", 0⟩], 2, 1⟩
    "u1" rfl rfl

/-- C8 counterexample: with the X-User-ID header present but holding the
empty string, and a non-empty user_id query parameter also present, the
middleware attaches no user identifier to the logging context at all — the
attached value is neither the header's value (the first one present) nor
the query parameter's. -/
theorem C8_counterexample_empty_header_value :
    headerLookup ([("X-User-ID", "")] : List (String × String)) "X-User-ID" =
      some "" ∧
    (request_middleware 0 ⟨[("X-User-ID", "")], [("user_id", "alice")],
      "/tasks", "GET"⟩ (.ok ⟨200, []⟩)).1.user_id = none ∧
    (none : Option String) ≠ some "" ∧ (none : Option String) ≠ some "alice" := by
  refine ⟨rfl, rfl, by decide, by decide⟩

/-- C8 (amended): the user identifier attached to the request's logging
context is the value of the X-User-ID header when that header is present,
else the value of the user_id query parameter when present — except that
when the first value present is the empty string, no user identifier is
attached; when neither is present no user identifier is attached and no
error results. -/
theorem C8_user_id_first_present_unless_empty (seed : Nat) (req : RequestInfo)
    (inner : Except String HttpResponse) :
    (∀ v, headerLookup req.headers "X-User-ID" = some v →
      (request_middleware seed req inner).1.user_id =
        (if v = "" then none else some v)) ∧
    (headerLookup req.headers "X-User-ID" = none →
      ∀ v, headerLookup req.query_params "user_id" = some v →
        (request_middleware seed req inner).1.user_id =
          (if v = "" then none else some v)) ∧
    (headerLookup req.headers "X-User-ID" = none →
      headerLookup req.query_params "user_id" = none →
      (request_middleware seed req inner).1.user_id = none) := by
  rw [request_middleware_fst]
  refine ⟨?_, ?_, ?_⟩
  · intro v hv
    show context_user_id req = _
    unfold context_user_id extract_user_id
    rw [hv]
    simp
  · intro hh v hv
    show context_user_id req = _
    unfold context_user_id extract_user_id
    rw [hh, hv]
    simp
  · intro hh hq
    show context_user_id req = _
    unfold context_user_id extract_user_id
    rw [hh, hq]
    simp

/-- C8 witness: a request carrying X-User-ID "bob" gets "bob" attached. -/
theorem C8_user_id_first_present_unless_empty_witness :
    (request_middleware 0 ⟨[("X-User-ID", "bob")], [], "/tasks", "GET"⟩
        (.ok ⟨200, []⟩)).1.user_id =
      (if ("bob" : String) = "" then none else some "bob") :=
  (C8_user_id_first_present_unless_empty 0
    ⟨[("X-User-ID", "bob")], [], "/tasks", "GET"⟩ (.ok ⟨200, []⟩)).1 "bob" rfl

/-- C9 counterexample: a tuple is an ordered sequence, yet an extra field
holding a (JSON-serializable) tuple does not appear in the record emitted
by add_fields — the isinstance check admits only list among the sequence
types, so the field is dropped. -/
theorem C9_counterexample_tuple_dropped :
    isOrderedSequence (.tuple []) = true ∧
    ("foo", PyValue.tuple []) ∈ [("foo", PyValue.tuple [])] ∧
    ("foo" : String) ∉ skipKeys ∧
    dictGet (add_fields [] [("foo", .tuple [])]
      "2025-01-01T00:00:00+00:00" "INFO" "task-api") "foo" = none := by
  refine ⟨rfl, List.mem_singleton.mpr rfl, by decide, rfl⟩

/-- C9 (amended): for every log call, every extra (non-skipped) field whose
value is a string, number, boolean, null, list, or dict appears in the
emitted JSON record with its value, and every extra field of any other
type — including ordered sequences other than list, such as tuples — is
silently dropped, while the record is still produced. -/
theorem C9_extra_fields_kept_or_dropped
    (base recordDict : List (String × PyValue)) (ts lvl lg key : String)
    (value : PyValue) (hmem : (key, value) ∈ recordDict)
    (hnodup : (recordDict.map Prod.fst).Nodup) (hskip : key ∉ skipKeys) :
    (isJsonSerializable value = true →
      dictGet (add_fields base recordDict ts lvl lg) key = some value) ∧
    (isJsonSerializable value = false →
      dictHasKey base key = false →
      key ≠ "timestamp" → key ≠ "level" → key ≠ "logger" →
      dictHasKey (add_fields base recordDict ts lvl lg) key = false) := by
  constructor
  · intro hser
    exact foldl_addFieldStep_found recordDict _ key value hmem hnodup hskip hser
  · intro hser hbase ht hl hg
    refine foldl_addFieldStep_dropped recordDict _ key ?_ ?_
    · apply alistHasKey_alistSet_ne _ _ _ _ hg
      apply alistHasKey_alistSet_ne _ _ _ _ hl
      apply alistHasKey_alistSet_ne _ _ _ _ ht
      exact hbase
    · intro kv hkv hk hcond
      have hmem2 : (key, kv.2) ∈ recordDict := by
        rw [← hk]
        exact hkv
      have hveq : kv.2 = value := alist_nodup_mem_unique hnodup hmem2 hmem
      rw [hveq, hser] at hcond
      simp at hcond

/-- C9 witness: a string-valued extra field "foo" is kept, an object-valued
extra field "bar" is dropped, from the same record. -/
theorem C9_extra_fields_kept_or_dropped_witness :
    (isJsonSerializable (PyValue.str "x") = true →
      dictGet (add_fields [] [("foo", PyValue.str "x"),
        ("bar", PyValue.obj "datetime")] "t" "INFO" "task-api") "foo" =
        some (PyValue.str "x")) ∧
    (isJsonSerializable (PyValue.obj "datetime") = false →
      dictHasKey [] "bar" = false →
      ("bar" : String) ≠ "timestamp" → ("bar" : String) ≠ "level" →
      ("bar" : String) ≠ "logger" →
      dictHasKey (add_fields [] [("foo", PyValue.str "x"),
        ("bar", PyValue.obj "datetime")] "t" "INFO" "task-api") "bar" = false) :=
  ⟨(C9_extra_fields_kept_or_dropped []
      [("foo", PyValue.str "x"), ("bar", PyValue.obj "datetime")]
      "t" "INFO" "task-api" "foo" (PyValue.str "x")
      (List.mem_cons_self _ _) (by decide) (by decide)).1,
    (C9_extra_fields_kept_or_dropped []
      [("foo", PyValue.str "x"), ("bar", PyValue.obj "datetime")]
      "t" "INFO" "task-api" "bar" (PyValue.obj "datetime")
      (List.mem_cons_of_mem _ (List.mem_cons_self _ _)) (by decide)
      (by decide)).2⟩

end TaskApi
